import Mathlib

/-!
Verification development for the scoptics-agent repository.

The development shallowly embeds the three source files:
  - src/frontend/app.js      : the chat frontend (handleQuery and its helpers),
    modelled as a state machine over an explicit UI state, with JavaScript
    values modelled by the inductive type JVal (including undefined, so that
    property access on undefined or null raising a TypeError is represented
    faithfully in the Except monad).
  - src/infra/init.sql       : the V1 initialization script (tables tracking,
    events, and the security grants), modelled as row predicates and as a
    small semantics of the GRANT statements over a catalog state.
  - src/unnamed/part_000     : the V3 clean-start script (match_metadata,
    tracking_data with PRIMARY KEY (match_id, frame), and the same grants).

The agent orchestrator itself (the HTTP service behind /agent/query) is not
part of the repository sources; where a claim is decided by it, the relevant
behaviour is modelled from the spec and marked as such in its doc comment.
-/

namespace Scoptics

/-- Model of a JavaScript/JSON value as seen by app.js. The undef constructor
models the JavaScript value undefined (the result of reading an absent
property); jnull models null. Numbers are modelled as integers, which covers
every value these scripts actually manipulate. -/
inductive JVal where
  | undef : JVal
  | jnull : JVal
  | jbool : Bool → JVal
  | jnum : Int → JVal
  | jstr : String → JVal
  | jarr : List JVal → JVal
  | jobj : List (String × JVal) → JVal


/-- JavaScript truthiness: undefined, null, false, 0 and the empty string are
falsy; every object and every array (including the empty array) is truthy. -/
def truthy : JVal → Bool
  | .undef => false
  | .jnull => false
  | .jbool b => b
  | .jnum n => decide (n ≠ 0)
  | .jstr s => decide (s ≠ "")
  | .jarr _ => true
  | .jobj _ => true

/-- First-match lookup in an object literal field list. -/
def lookupField : List (String × JVal) → String → JVal
  | [], _ => .undef
  | (k, v) :: rest, key => if k = key then v else lookupField rest key

/-- JavaScript property access v[key]. Reading a property of undefined or null
throws a TypeError; reading an absent property of anything else yields
undefined. Arrays and strings expose their length. -/
def getField : JVal → String → Except String JVal
  | .undef, _ => .error "TypeError: cannot read properties of undefined"
  | .jnull, _ => .error "TypeError: cannot read properties of null"
  | .jobj fields, key => .ok (lookupField fields key)
  | .jarr xs, key => if key = "length" then .ok (.jnum xs.length) else .ok .undef
  | .jstr s, key => if key = "length" then .ok (.jnum s.length) else .ok .undef
  | _, _ => .ok .undef

mutual

/-- JavaScript String(v) conversion, as used by new Error(v) for its message. -/
def jsToString : JVal → String
  | .undef => "undefined"
  | .jnull => "null"
  | .jbool b => if b then "true" else "false"
  | .jnum n => toString n
  | .jstr s => s
  | .jobj _ => "[object Object]"
  | .jarr xs => String.intercalate "," (jsArrStrings xs)

/-- Array-to-string parts: Array.prototype.toString joins the elements with
commas, rendering null and undefined elements as the empty string. -/
def jsArrStrings : List JVal → List String
  | [] => []
  | .undef :: rest => "" :: jsArrStrings rest
  | .jnull :: rest => "" :: jsArrStrings rest
  | v :: rest => jsToString v :: jsArrStrings rest

end

/-- Whitespace characters removed by String.prototype.trim (the ASCII ones;
the full JavaScript set also has Unicode space characters, which no claim
exercises). -/
def jsWhitespace (c : Char) : Bool :=
  c = ' ' || c = '\t' || c = '\n' || c = '\r'

/-- Model of the JavaScript expression s.trim(). -/
def jsTrim (s : String) : String :=
  String.mk (((s.data.dropWhile jsWhitespace).reverse.dropWhile jsWhitespace).reverse)

end Scoptics

namespace Scoptics.Frontend

open Scoptics

/-- The JSON body sent by the fetch in handleQuery:
JSON.stringify of the object with fields query and chat_history. -/
structure Request where
  query : String
  chat_history : JVal


/-- One entry appended to the chat container DOM element: a user message div
(displayUserMessage), an agent message div (displayAgentResponse, carrying the
response object it renders), or an error div (displayError, carrying the
message string that is rendered inside the element). -/
inductive Display where
  | userMsg : String → Display
  | agentMsg : JVal → Display
  | errorMsg : String → Display


/-- The text rendered by displayError for a message: the innerHTML template
wraps the message in a paragraph whose visible text is the message after the
Error label. -/
def renderedErrorText (message : String) : String :=
  "Error: " ++ message

/-- The mutable state touched by app.js: the text in the query input, the
disabled flag of the submit button, the loader visibility, the chatHistory
variable, the chat container contents, and a ghost counter of fetches that
have been started and have not yet settled. -/
structure UIState where
  inputValue : String
  buttonDisabled : Bool
  loaderVisible : Bool
  chatHistory : JVal
  displays : List Display
  inFlight : Nat


/-- The state after DOMContentLoaded: empty input, enabled button, hidden
loader, and the initialization let chatHistory = []. -/
def initState : UIState :=
  { inputValue := ""
    buttonDisabled := false
    loaderVisible := false
    chatHistory := .jarr []
    displays := []
    inFlight := 0 }

/-- The synchronous part of handleQuery up to and including starting the
fetch: trim the input; if the result is empty, return without doing anything;
otherwise display the user message, clear the input, show the loader, disable
the button, and start the fetch whose body carries the trimmed query and the
current chatHistory. Returns the new state and the request if one started. -/
def startQuery (s : UIState) : UIState × Option Request :=
  let query := jsTrim s.inputValue
  if query = "" then (s, none)
  else
    ({ s with
        displays := s.displays ++ [Display.userMsg query]
        inputValue := ""
        loaderVisible := true
        buttonDisabled := true
        inFlight := s.inFlight + 1 },
     some { query := query, chat_history := s.chatHistory })

/-- How a started fetch settles, as observed by the code after the awaits:
either response.ok held and the body parsed to a JSON value, or the response
was non-2xx and its body parsed to a JSON value, or the fetch itself or a
json() call rejected with some error message. -/
inductive FetchResult where
  | success : JVal → FetchResult
  | httpError : JVal → FetchResult
  | networkError : String → FetchResult


/-- The try block of handleQuery after the fetch settles. On a non-2xx
response it reads errorData.detail (a TypeError if the body is null) and
throws new Error(detail or the fixed fallback text). On a 2xx response it
reads data.response.updated_history (a TypeError if data.response is absent
or null), assigns chatHistory from it with the empty-array fallback for falsy
values, and then displayAgentResponse appends the agent message. An error
value is what the catch block receives as error.message. -/
def tryBody (s : UIState) : FetchResult → Except String UIState
  | .networkError m => .error m
  | .httpError body =>
    match getField body "detail" with
    | .error m => .error m
    | .ok detail =>
      .error (if truthy detail then jsToString detail else "An API error occurred.")
  | .success body =>
    match getField body "response" with
    | .error m => .error m
    | .ok respObj =>
      match getField respObj "updated_history" with
      | .error m => .error m
      | .ok uh =>
        .ok { s with
                chatHistory := if truthy uh then uh else .jarr []
                displays := s.displays ++ [Display.agentMsg respObj] }

/-- The catch block: displayError(error.message) appends an error div. -/
def applyCatch (s : UIState) (message : String) : UIState :=
  { s with displays := s.displays ++ [Display.errorMsg message] }

/-- The finally block: hide the loader, re-enable the button; the settled
fetch is no longer in flight. -/
def applyFinally (s : UIState) : UIState :=
  { s with loaderVisible := false, buttonDisabled := false, inFlight := s.inFlight - 1 }

/-- The whole asynchronous continuation of handleQuery: try body, then catch
on a thrown error, then finally. -/
def settleQuery (s : UIState) (r : FetchResult) : UIState :=
  match tryBody s r with
  | .ok s1 => applyFinally s1
  | .error m => applyFinally (applyCatch s m)

/-- External events the page reacts to: a click on the submit button, an
Enter keyup in the input, the user editing the input text, and an in-flight
fetch settling. -/
inductive UIEvent where
  | click : UIEvent
  | enterKey : UIEvent
  | setInput : String → UIEvent
  | settle : FetchResult → UIEvent


/-- One step of the page, also reporting the request if this event started a
fetch. A disabled button fires no click event, so click is a no-op while
buttonDisabled; the keyup listener calls handleQuery unconditionally on
Enter; settle is a no-op when nothing is in flight. -/
def stepE (s : UIState) : UIEvent → UIState × Option Request
  | .click => if s.buttonDisabled then (s, none) else startQuery s
  | .enterKey => startQuery s
  | .setInput v => ({ s with inputValue := v }, none)
  | .settle r => if s.inFlight = 0 then (s, none) else (settleQuery s r, none)

/-- One step of the page, state only. -/
def step (s : UIState) (e : UIEvent) : UIState :=
  (stepE s e).1

/-- Run a sequence of events from a state. -/
def run : UIState → List UIEvent → UIState
  | s, [] => s
  | s, e :: es => run (step s e) es

/-- The value of data.response.updated_history looked up totally: undefined
when any step of the path is absent or raises. Used to state what it means
for a 2xx body to lack a truthy updated_history field. -/
def uhField (body : JVal) : JVal :=
  match getField body "response" with
  | .error _ => .undef
  | .ok respObj =>
    match getField respObj "updated_history" with
    | .error _ => .undef
    | .ok v => v

end Scoptics.Frontend

namespace Scoptics.Sql

open Scoptics

/-- Table privileges grantable in the GRANT statements modelled here. The two
scripts only ever grant select; the other constructors exist so that the
absence of any write grant is a statement about the scripts, not about the
statement language. -/
inductive TablePriv where
  | select : TablePriv
  | insert : TablePriv
  | update : TablePriv
  | delete : TablePriv
  deriving DecidableEq, Repr

/-- Schema privileges: usage (see objects) and create (schema modification). -/
inductive SchemaPriv where
  | usage : SchemaPriv
  | create : SchemaPriv
  deriving DecidableEq, Repr

/-- The statements of the two initialization scripts that carry privilege or
catalog meaning, plus the write-granting statements the scripts never use. -/
inductive SqlStmt where
  | createTable : String → String → SqlStmt
  | createRole : String → SqlStmt
  | grantConnect : String → String → SqlStmt
  | grantUsage : String → String → SqlStmt
  | grantOnAllTables : TablePriv → String → String → SqlStmt
  | grantOnTable : TablePriv → String → String → SqlStmt
  | alterDefault : TablePriv → String → String → SqlStmt
  | createUser : String → SqlStmt
  | grantRole : String → String → SqlStmt
  | grantCreateOnSchema : String → String → SqlStmt
  deriving DecidableEq, Repr

/-- The slice of the database catalog these scripts act on: tables as
(schema, name) pairs, table ACL entries (privilege, table, role), default
privileges for future tables (privilege, schema, role), schema ACL entries,
CONNECT grants, roles, and role memberships (role, member). -/
structure PgState where
  tables : List (String × String)
  tableAcl : List (TablePriv × String × String)
  defaultAcl : List (TablePriv × String × String)
  schemaAcl : List (SchemaPriv × String × String)
  dbAcl : List (String × String)
  roles : List String
  members : List (String × String)
  deriving DecidableEq, Repr

/-- The empty catalog a clean database starts from. -/
def emptyPg : PgState :=
  { tables := [], tableAcl := [], defaultAcl := [], schemaAcl := []
    dbAcl := [], roles := [], members := [] }

/-- Effect of one statement on the catalog. CREATE TABLE applies the default
privileges of its schema to the new table, which is exactly how ALTER DEFAULT
PRIVILEGES reaches tables created after the script ran. GRANT ... ON ALL
TABLES IN SCHEMA touches only the tables existing at that moment. -/
def execStmt (st : PgState) : SqlStmt → PgState
  | .createTable n sch =>
    { st with
        tables := (sch, n) :: st.tables
        tableAcl :=
          st.defaultAcl.filterMap
            (fun e => if e.2.1 = sch then some (e.1, n, e.2.2) else none)
          ++ st.tableAcl }
  | .createRole r => { st with roles := r :: st.roles }
  | .grantConnect db r => { st with dbAcl := (db, r) :: st.dbAcl }
  | .grantUsage sch r => { st with schemaAcl := (SchemaPriv.usage, sch, r) :: st.schemaAcl }
  | .grantOnAllTables p sch r =>
    { st with
        tableAcl :=
          st.tables.filterMap
            (fun t => if t.1 = sch then some (p, t.2, r) else none)
          ++ st.tableAcl }
  | .grantOnTable p t r => { st with tableAcl := (p, t, r) :: st.tableAcl }
  | .alterDefault p sch r => { st with defaultAcl := (p, sch, r) :: st.defaultAcl }
  | .createUser u => { st with roles := u :: st.roles }
  | .grantRole r u => { st with members := (r, u) :: st.members }
  | .grantCreateOnSchema sch r =>
    { st with schemaAcl := (SchemaPriv.create, sch, r) :: st.schemaAcl }

/-- Run a script front to back. -/
def execScript : PgState → List SqlStmt → PgState
  | st, [] => st
  | st, stmt :: rest => execScript (execStmt st stmt) rest

/-- src/infra/init.sql, statement by statement: the two CREATE TABLE IF NOT
EXISTS statements (running on a clean database, so both create), the role,
its CONNECT, USAGE and SELECT grants, the default privileges for future
tables, the guarded CREATE USER, and the role grant to the user. -/
def initSqlScript : List SqlStmt :=
  [ .createTable "tracking" "public"
  , .createTable "events" "public"
  , .createRole "ai_agent_readonly"
  , .grantConnect "scoptics_db" "ai_agent_readonly"
  , .grantUsage "public" "ai_agent_readonly"
  , .grantOnAllTables TablePriv.select "public" "ai_agent_readonly"
  , .alterDefault TablePriv.select "public" "ai_agent_readonly"
  , .createUser "ai_user"
  , .grantRole "ai_agent_readonly" "ai_user" ]

/-- src/unnamed/part_000 (the V3 clean-start script), statement by statement:
match_metadata and tracking_data, then the same security section. -/
def cleanStartScript : List SqlStmt :=
  [ .createTable "match_metadata" "public"
  , .createTable "tracking_data" "public"
  , .createRole "ai_agent_readonly"
  , .grantConnect "scoptics_db" "ai_agent_readonly"
  , .grantUsage "public" "ai_agent_readonly"
  , .grantOnAllTables TablePriv.select "public" "ai_agent_readonly"
  , .alterDefault TablePriv.select "public" "ai_agent_readonly"
  , .createUser "ai_user"
  , .grantRole "ai_agent_readonly" "ai_user" ]

/-- Every table privilege actually granted (to anyone, on any table, now or
via default privileges for future tables) is select, and every schema
privilege is usage: no insert, update, delete or create privilege exists in
the catalog at all. -/
@[reducible] def readOnlyAcl (st : PgState) : Prop :=
  (∀ e ∈ st.tableAcl, e.1 = TablePriv.select) ∧
  (∀ e ∈ st.defaultAcl, e.1 = TablePriv.select) ∧
  (∀ e ∈ st.schemaAcl, e.1 = SchemaPriv.usage)

/-- The given role holds select on every table of the public schema. -/
@[reducible] def selectOnAllPublic (st : PgState) (role : String) : Prop :=
  ∀ t ∈ st.tables, t.1 = "public" → (TablePriv.select, t.2, role) ∈ st.tableAcl

/-- Invariant carried over future CREATE TABLE statements: the catalog is
select-only, the readonly role covers all public tables, the default
privileges contain the select entry that future public tables inherit, and
ai_user is a member of the readonly role. -/
@[reducible] def c2Inv (st : PgState) : Prop :=
  readOnlyAcl st ∧
  selectOnAllPublic st "ai_agent_readonly" ∧
  (TablePriv.select, "public", "ai_agent_readonly") ∈ st.defaultAcl ∧
  ("ai_agent_readonly", "ai_user") ∈ st.members

/-- The catalog after running a script and then creating any further tables
in the public schema. -/
def stateAfter (script : List SqlStmt) (futureTables : List String) : PgState :=
  execScript emptyPg (script ++ futureTables.map (fun n => SqlStmt.createTable n "public"))

end Scoptics.Sql

namespace Scoptics.Sql

/-- A row of the V1 table tracking (src/infra/init.sql, TBL.01). Every column
is modelled as an Option so that the NOT NULL constraints of the schema
appear explicitly in the validity predicate. Timestamps are modelled as
integers (an epoch offset); the DOUBLE PRECISION columns are modelled as
integers as well, since no claim computes with their values. -/
structure TrackingRow where
  match_id : Option String
  frame : Option Int
  timestamp_iso : Option Int
  team_id : Option String
  player_id : Option String
  x : Option Int
  y : Option Int
  z : Option Int
  speed : Option Int
  orientation : Option Int
  deriving DecidableEq, Repr

/-- The column constraints the V1 tracking table declares: match_id, frame
and timestamp_iso are NOT NULL. It declares nothing else: no PRIMARY KEY, no
UNIQUE constraint, no CHECK. -/
@[reducible] def trackingRowOk (r : TrackingRow) : Prop :=
  r.match_id ≠ none ∧ r.frame ≠ none ∧ r.timestamp_iso ≠ none

/-- A state of the V1 tracking table is valid exactly when every stored row
satisfies the declared column constraints; the schema imposes no table-level
constraint. -/
@[reducible] def validTracking (rows : List TrackingRow) : Prop :=
  ∀ r ∈ rows, trackingRowOk r

/-- The key tuple of the spec invariant for tracking records:
(match, frame[, entity]), the entity being the player identifier. -/
def trackingKey (r : TrackingRow) : Option String × Option Int × Option String :=
  (r.match_id, r.frame, r.player_id)

/-- A row of the V1 table events (src/infra/init.sql, TBL.02). -/
structure EventsRow where
  event_id : Option String
  match_id : Option String
  event_type : Option String
  start_time : Option Int
  end_time : Option Int
  start_frame : Option Int
  end_frame : Option Int
  team_id : Option String
  players_involved : Option JVal
  metadata_json : Option JVal

/-- The column constraints the events table declares: event_id is the PRIMARY
KEY (hence NOT NULL), and match_id, event_type, the two timestamps and the
two frames are NOT NULL. There is no CHECK constraint and no FOREIGN KEY. -/
@[reducible] def eventsRowOk (r : EventsRow) : Prop :=
  r.event_id ≠ none ∧ r.match_id ≠ none ∧ r.event_type ≠ none ∧
  r.start_time ≠ none ∧ r.end_time ≠ none ∧
  r.start_frame ≠ none ∧ r.end_frame ≠ none

/-- A state of the events table is valid exactly when every row satisfies the
column constraints and the PRIMARY KEY makes event_id values pairwise
distinct. This is the complete set of constraints the schema declares. -/
@[reducible] def validEvents (rows : List EventsRow) : Prop :=
  (∀ r ∈ rows, eventsRowOk r) ∧
  rows.Pairwise (fun a b => a.event_id ≠ b.event_id)

/-- The frame/time ordering half of the spec invariant for one event row:
start_frame less or equal end_frame and start_time less or equal end_time,
read on the present values. -/
def eventOrdered (r : EventsRow) : Prop :=
  (∀ a b : Int, r.start_frame = some a → r.end_frame = some b → a ≤ b) ∧
  (∀ a b : Int, r.start_time = some a → r.end_time = some b → a ≤ b)

/-- Frame f lies within the known frame range of match m in the tracking
table: some tracking row of that match has a frame at or below f and some
tracking row of that match has a frame at or above f. -/
def frameInMatchRange (tr : List TrackingRow) (m : String) (f : Int) : Prop :=
  (∃ t ∈ tr, t.match_id = some m ∧ ∃ g : Int, t.frame = some g ∧ g ≤ f) ∧
  (∃ t ∈ tr, t.match_id = some m ∧ ∃ g : Int, t.frame = some g ∧ f ≤ g)

/-- The full invariant claimed for one event row against a tracking table:
ordering of frames and times, and both frames within the frame range of the
referenced match. -/
def eventInvariant (tr : List TrackingRow) (r : EventsRow) : Prop :=
  eventOrdered r ∧
  (∀ m : String, r.match_id = some m →
    (∀ a : Int, r.start_frame = some a → frameInMatchRange tr m a) ∧
    (∀ b : Int, r.end_frame = some b → frameInMatchRange tr m b))

/-- A row of the V3 table match_metadata (src/unnamed/part_000). -/
structure MatchMetadataRow where
  match_id : Option String
  competition_name : Option String
  home_team_name : Option String
  away_team_name : Option String
  pitch_length_m : Option Int
  pitch_width_m : Option Int
  additional_info : Option JVal

/-- match_metadata constraints: match_id is the PRIMARY KEY. -/
@[reducible] def validMatchMetadata (rows : List MatchMetadataRow) : Prop :=
  (∀ r ∈ rows, r.match_id ≠ none) ∧
  rows.Pairwise (fun a b => a.match_id ≠ b.match_id)

/-- A row of the V3 table tracking_data (src/unnamed/part_000). -/
structure TrackingDataRow where
  match_id : Option String
  period : Option Int
  frame : Option Int
  timestamp_iso : Option Int
  tracked_objects : Option JVal
  frame_metadata : Option JVal

/-- The key of the V3 tracking_data PRIMARY KEY (match_id, frame). -/
def tdKey (r : TrackingDataRow) : Option String × Option Int :=
  (r.match_id, r.frame)

/-- The constraints the V3 tracking_data schema declares: NOT NULL on
match_id, period, frame and timestamp_iso, the PRIMARY KEY (match_id, frame),
and the FOREIGN KEY match_id REFERENCES match_metadata(match_id). -/
@[reducible] def validTrackingData (meta : List MatchMetadataRow) (rows : List TrackingDataRow) : Prop :=
  (∀ r ∈ rows,
      r.match_id ≠ none ∧ r.period ≠ none ∧ r.frame ≠ none ∧ r.timestamp_iso ≠ none) ∧
  rows.Pairwise (fun a b => tdKey a ≠ tdKey b) ∧
  (∀ r ∈ rows, ∃ m ∈ meta, m.match_id = r.match_id)

/-- Demo match_metadata row used by concrete witness instantiations. -/
def mmDemo : MatchMetadataRow :=
  { match_id := some "m1", competition_name := none, home_team_name := none
    away_team_name := none, pitch_length_m := none, pitch_width_m := none
    additional_info := none }

/-- Demo tracking_data row (match m1, frame 1) for witness instantiations. -/
def tdDemo1 : TrackingDataRow :=
  { match_id := some "m1", period := some 1, frame := some 1
    timestamp_iso := some 0, tracked_objects := none, frame_metadata := none }

/-- Demo tracking_data row (match m1, frame 2) for witness instantiations. -/
def tdDemo2 : TrackingDataRow :=
  { match_id := some "m1", period := some 1, frame := some 2
    timestamp_iso := some 1, tracked_objects := none, frame_metadata := none }

/-- Demo events row e1 for witness instantiations. -/
def evDemo1 : EventsRow :=
  { event_id := some "e1", match_id := some "m1", event_type := some "pass"
    start_time := some 0, end_time := some 4, start_frame := some 1
    end_frame := some 2, team_id := none, players_involved := none
    metadata_json := none }

/-- Demo events row e2 for witness instantiations. -/
def evDemo2 : EventsRow :=
  { event_id := some "e2", match_id := some "m1", event_type := some "shot"
    start_time := some 5, end_time := some 6, start_frame := some 3
    end_frame := some 4, team_id := none, players_involved := none
    metadata_json := none }

end Scoptics.Sql

namespace Scoptics.Agent

open Scoptics Scoptics.Sql

/-- Modelled from the spec: one Conversation Turn (spec section 3) — the user
utterance, the agent conversational text, and the optional attached
structured payload. The agent service holding this type is not part of the
repository sources. -/
structure Turn where
  user : String
  agent : String
  payload : List JVal

/-- Modelled from the spec: the outbound response payload of the orchestrator
(spec section 6) — conversational_response, a data array, and
updated_history. -/
structure AgentResponse where
  conversational_response : String
  data : List JVal
  updated_history : List Turn

/-- Modelled from the spec: the read-only data store the agent retrieves
from — the tracking table and the events table. -/
structure Store where
  tracking : List TrackingRow
  events : List EventsRow

/-- Substring test used by the rule-based intent resolver below: t occurs in
s exactly when splitting s on t yields more than one piece. -/
def containsSub (s t : String) : Bool :=
  decide (1 < (s.splitOn t).length)

/-- Modelled from the spec: the target entity of a Retrieval Plan. -/
inductive Target where
  | events : Target
  | tracking : Target

/-- Modelled from the spec: a Retrieval Plan (spec section 3) — target
entity, match scope, and the maximum result size. -/
structure Plan where
  target : Target
  matchId : String
  cap : Nat

/-- Modelled from the spec: the three Intent Resolver outcomes (spec section
4.3) — conversational, retrieval, or a clarification request. -/
inductive Outcome where
  | conversational : String → Outcome
  | retrieval : Plan → Outcome
  | clarify : String → Outcome

/-- Keywords that classify an utterance as event retrieval. -/
def eventKeywords : List String :=
  ["pass", "shot", "pressure", "event"]

/-- Keywords that classify an utterance as tracking retrieval. -/
def trackingKeywords : List String :=
  ["position", "tracking", "speed"]

/-- Keywords that classify an utterance as purely conversational. -/
def greetingKeywords : List String :=
  ["hello", "thanks", "hey"]

/-- Modelled from the spec: match-scope extraction — the first word of the
utterance that carries a match designator. -/
def extractMatchRef (s : String) : Option String :=
  (s.splitOn " ").find? (fun w => containsSub w "match-")

/-- Modelled from the spec: resolve the target match from the utterance,
falling back to the most recently referenced match in the last five turns of
the conversation state (spec sections 4.3 and 4.3 item 2). -/
def resolveMatch (utterance : String) (history : List Turn) : Option String :=
  match extractMatchRef utterance with
  | some m => some m
  | none => (history.reverse.take 5).findSome? (fun t => extractMatchRef t.user)

/-- Modelled from the spec: the deterministic rule-based Intent Resolver
instance (spec sections 4.3 and 9): greetings are conversational; event
keywords win the tie-break over tracking keywords; a retrieval without a
resolvable match becomes a clarification; anything else is unresolvable and
becomes a clarification. -/
def classify (utterance : String) (history : List Turn) : Outcome :=
  if greetingKeywords.any (fun k => containsSub utterance k) then
    .conversational "Hello! Ask me about a match."
  else if eventKeywords.any (fun k => containsSub utterance k) then
    match resolveMatch utterance history with
    | some m => .retrieval { target := Target.events, matchId := m, cap := 500 }
    | none => .clarify "Which match do you mean?"
  else if trackingKeywords.any (fun k => containsSub utterance k) then
    match resolveMatch utterance history with
    | some m => .retrieval { target := Target.tracking, matchId := m, cap := 500 }
    | none => .clarify "Which match do you mean?"
  else
    .clarify "Could you rephrase the question?"

/-- Render an Option String as a JSON value. -/
def optStrJ : Option String → JVal
  | some s => .jstr s
  | none => .jnull

/-- Render an Option Int as a JSON value. -/
def optIntJ : Option Int → JVal
  | some n => .jnum n
  | none => .jnull

/-- Serialize an events row for the data array of the response. -/
def eventToJ (e : EventsRow) : JVal :=
  .jobj [ ("event_id", optStrJ e.event_id), ("match_id", optStrJ e.match_id)
        , ("event_type", optStrJ e.event_type)
        , ("start_frame", optIntJ e.start_frame), ("end_frame", optIntJ e.end_frame) ]

/-- Serialize a tracking row for the data array of the response. -/
def trackingToJ (t : TrackingRow) : JVal :=
  .jobj [ ("match_id", optStrJ t.match_id), ("frame", optIntJ t.frame)
        , ("player_id", optStrJ t.player_id)
        , ("x", optIntJ t.x), ("y", optIntJ t.y) ]

/-- Modelled from the spec: the Query Executor over the Data Store Adapter
(spec sections 4.1 and 4.4) — filter the target table to the plan scope, cap
the result, report truncation, and return the store untouched (the adapter is
read-only). -/
def runPlan (store : Store) (p : Plan) : (List JVal × Bool) × Store :=
  match p.target with
  | Target.events =>
    let rows := store.events.filter (fun e => decide (e.match_id = some p.matchId))
    (((rows.take p.cap).map eventToJ, decide (p.cap < rows.length)), store)
  | Target.tracking =>
    let rows := store.tracking.filter (fun t => decide (t.match_id = some p.matchId))
    (((rows.take p.cap).map trackingToJ, decide (p.cap < rows.length)), store)

/-- Modelled from the spec: the Response Composer (spec section 4.5) — merge
the phrase, the optional truncation note and the data rows, and append
exactly one turn to the conversation state. -/
def compose (phrase : String) (rows : List JVal) (truncated : Bool)
    (query : String) (history : List Turn) : AgentResponse :=
  let text := if truncated then phrase ++ " (results truncated)" else phrase
  { conversational_response := text
    data := rows
    updated_history := history ++ [{ user := query, agent := text, payload := rows }] }

/-- Modelled from the spec: the Agent Orchestrator (spec section 2) — drive
Intent Resolver, Query Executor and Response Composer in sequence for one
(query, chat_history) call, threading the store through the executor. The
orchestrator itself is absent from the repository sources; this definition
follows the component contracts of spec sections 4.1 to 4.5. -/
def orchestrate (store : Store) (query : String) (history : List Turn) :
    AgentResponse × Store :=
  match classify query history with
  | .conversational reply => (compose reply [] false query history, store)
  | .clarify reply => (compose reply [] false query history, store)
  | .retrieval p =>
    let ((rows, truncated), store1) := runPlan store p
    (compose "Here is what I found." rows truncated query history, store1)

end Scoptics.Agent

namespace Scoptics

open Scoptics.Frontend Scoptics.Sql Scoptics.Agent

/-- Helper: String(v) of a string value is that string. -/
theorem jsToString_jstr (s : String) : jsToString (JVal.jstr s) = s := rfl

/-- Helper: a pairwise-distinct image gives distinct values at any two
distinct positions of a list. -/
theorem pairwise_ne_get {α β : Type} (f : α → β) (l : List α)
    (h : l.Pairwise (fun a b => f a ≠ f b)) (i j : Fin l.length) (hij : i ≠ j) :
    f (l.get i) ≠ f (l.get j) := by
  rcases lt_trichotomy i j with hlt | heq | hgt
  · exact List.pairwise_iff_get.mp h i j hlt
  · exact absurd heq hij
  · exact (List.pairwise_iff_get.mp h j i hgt).symm

/-- C5: for every input whose trimmed value is empty, handleQuery returns at
the guard: it performs no HTTP request, displays no message, and leaves
chatHistory (and everything else) unchanged. -/
theorem C5_empty_query_noop (s : UIState) (h : jsTrim s.inputValue = "") :
    startQuery s = (s, none) := by
  simp [startQuery, h]

/-- C5 witness: the guard fires on a whitespace-only input. -/
theorem C5_empty_query_noop_witness :
    startQuery { initState with inputValue := "   " } =
      ({ initState with inputValue := "   " }, none) :=
  C5_empty_query_noop { initState with inputValue := "   " } (by decide)

/-- C1 counterexample: the claim that at most one request is in flight per
session is false. The keyup listener calls handleQuery without checking the
disabled flag, so typing new non-empty text while a fetch is in flight and
pressing Enter starts a second concurrent fetch: after the event trace
[type a, Enter, type b, Enter] with no settle in between, two fetches are in
flight. -/
theorem C1_second_fetch_possible :
    ¬ (∀ es : List UIEvent, (run initState es).inFlight ≤ 1) := by
  intro h
  have h2 := h [UIEvent.setInput "a", UIEvent.enterKey,
                UIEvent.setInput "b", UIEvent.enterKey]
  have h3 : (run initState [UIEvent.setInput "a", UIEvent.enterKey,
                UIEvent.setInput "b", UIEvent.enterKey]).inFlight = 2 := rfl
  rw [h3] at h2
  exact absurd h2 (by decide)

/-- C1 amended: starting a fetch clears the input and disables the button,
and from any state with the button disabled and an empty (after trimming)
input neither a button click nor an Enter keypress starts a second fetch; so
a second fetch can start before the first settles only through the Enter
path, and only after the user types new non-empty text. -/
theorem C1_start_blocks_reentry :
    (∀ (s s1 : UIState) (r : Request), startQuery s = (s1, some r) →
        s1.inputValue = "" ∧ s1.buttonDisabled = true) ∧
    (∀ s : UIState, s.buttonDisabled = true → jsTrim s.inputValue = "" →
        step s UIEvent.click = s ∧ step s UIEvent.enterKey = s) := by
  constructor
  · intro s s1 r h
    by_cases hq : jsTrim s.inputValue = ""
    · simp [startQuery, hq] at h
    · simp [startQuery, hq] at h
      obtain ⟨h1, -⟩ := h
      rw [← h1]
      exact ⟨rfl, rfl⟩
  · intro s hb ht
    refine ⟨?_, ?_⟩
    · simp [step, stepE, hb]
    · simp [step, stepE, startQuery, ht]

/-- C1 witness: immediately after a start from an idle page with input hi,
the input is empty, the button is disabled, and neither a click nor an Enter
keypress changes the state. -/
theorem C1_start_blocks_reentry_witness :
    ((startQuery { initState with inputValue := "hi" }).1.inputValue = "" ∧
     (startQuery { initState with inputValue := "hi" }).1.buttonDisabled = true) ∧
    (step (startQuery { initState with inputValue := "hi" }).1 UIEvent.click
        = (startQuery { initState with inputValue := "hi" }).1 ∧
     step (startQuery { initState with inputValue := "hi" }).1 UIEvent.enterKey
        = (startQuery { initState with inputValue := "hi" }).1) :=
  ⟨C1_start_blocks_reentry.1 { initState with inputValue := "hi" }
      (startQuery { initState with inputValue := "hi" }).1
      { query := "hi", chat_history := JVal.jarr [] } rfl,
   C1_start_blocks_reentry.2 (startQuery { initState with inputValue := "hi" }).1
      (by decide) (by decide)⟩

/-- C6: the stored chat history starts as the empty array; every successful
response whose body carries response.updated_history as an array replaces the
stored history by exactly that array (an array is always truthy, so the
empty-array fallback never changes it); and every request handleQuery starts
carries the currently stored history as its chat_history field. Together:
the chat_history of the next request equals the updated_history of the most
recent successful response, and the first request sends the empty history. -/
theorem C6_history_round_trip :
    initState.chatHistory = JVal.jarr [] ∧
    (∀ (s : UIState) (body respObj : JVal) (l : List JVal),
        getField body "response" = Except.ok respObj →
        getField respObj "updated_history" = Except.ok (JVal.jarr l) →
        (settleQuery s (FetchResult.success body)).chatHistory = JVal.jarr l) ∧
    (∀ (s s1 : UIState) (r : Request), startQuery s = (s1, some r) →
        r.chat_history = s.chatHistory) := by
  refine ⟨rfl, ?_, ?_⟩
  · intro s body respObj l h1 h2
    simp [settleQuery, tryBody, h1, h2, truthy, applyFinally]
  · intro s s1 r h
    by_cases hq : jsTrim s.inputValue = ""
    · simp [startQuery, hq] at h
    · simp [startQuery, hq] at h
      obtain ⟨-, h2⟩ := h
      rw [← h2]

/-- C6 witness: a successful response carrying a one-turn updated_history
replaces the stored history with that turn list. -/
theorem C6_history_round_trip_witness :
    (settleQuery initState
        (FetchResult.success (JVal.jobj [("response",
            JVal.jobj [("updated_history", JVal.jarr [JVal.jstr "t1"])])]))).chatHistory
      = JVal.jarr [JVal.jstr "t1"] :=
  C6_history_round_trip.2.1 initState _ _ [JVal.jstr "t1"] rfl rfl

/-- C7 counterexample: the claim that no error outcome leaves the
conversation state without a turn recording the exchange is false for this
code. In the concrete trace [type hello, Enter, settle with a non-2xx
response], the utterance was processed (the user message and the error are
both rendered in the chat container) yet the carried conversation state is
still the empty array: the catch path never touches chatHistory, so the
failed exchange leaves no turn in the state resent on the next call. -/
theorem C7_error_drops_utterance :
    (run initState [UIEvent.setInput "hello", UIEvent.enterKey,
        UIEvent.settle (FetchResult.httpError
          (JVal.jobj [("detail", JVal.jstr "boom")]))]).displays
      = [Display.userMsg "hello", Display.errorMsg "boom"] ∧
    (run initState [UIEvent.setInput "hello", UIEvent.enterKey,
        UIEvent.settle (FetchResult.httpError
          (JVal.jobj [("detail", JVal.jstr "boom")]))]).chatHistory
      = JVal.jarr [] :=
  ⟨rfl, rfl⟩

/-- C7 amended: on every error outcome (non-2xx response or rejected
fetch/parse) the frontend leaves the stored chat history exactly as it was:
the utterance of the failed exchange is rendered in the page but is not
appended to the conversation state carried forward; only a successful
response can change the stored history. -/
theorem C7_error_leaves_history_unchanged :
    (∀ (s : UIState) (body : JVal),
        (settleQuery s (FetchResult.httpError body)).chatHistory = s.chatHistory) ∧
    (∀ (s : UIState) (m : String),
        (settleQuery s (FetchResult.networkError m)).chatHistory = s.chatHistory) := by
  constructor
  · intro s body
    cases h : getField body "detail" <;>
      simp [settleQuery, tryBody, h, applyFinally, applyCatch]
  · intro s m
    rfl

/-- C8 counterexample: the claim that the detail string of a non-2xx JSON
body is surfaced verbatim is false when detail is the empty string: the
expression errorData.detail or-else the fallback text treats the empty
string as falsy, so the surfaced message is the fixed fallback text, not the
(empty) detail. -/
theorem C8_empty_detail_not_verbatim :
    ¬ (∀ (s : UIState) (body : JVal) (d : String),
        getField body "detail" = Except.ok (JVal.jstr d) →
        (settleQuery s (FetchResult.httpError body)).displays
          = s.displays ++ [Display.errorMsg d]) := by
  intro h
  have h2 := h initState (JVal.jobj [("detail", JVal.jstr "")]) "" rfl
  have h3 : (settleQuery initState
      (FetchResult.httpError (JVal.jobj [("detail", JVal.jstr "")]))).displays
      = [Display.errorMsg "An API error occurred."] := rfl
  have h4 : initState.displays ++ [Display.errorMsg ""] = [Display.errorMsg ""] := rfl
  rw [h3, h4] at h2
  simp only [List.cons.injEq, Display.errorMsg.injEq] at h2
  exact absurd h2.1 (by decide)

/-- C8 amended: for every non-2xx response whose JSON body carries a
non-empty string field detail, the catch path surfaces exactly that string as
the error message: the appended error element carries d, rendered as the
Error-labelled text. Empty detail instead falls back to a generic message. -/
theorem C8_nonempty_detail_surfaced (s : UIState) (body : JVal) (d : String)
    (hd : getField body "detail" = Except.ok (JVal.jstr d)) (hne : d ≠ "") :
    (settleQuery s (FetchResult.httpError body)).displays
        = s.displays ++ [Display.errorMsg d] ∧
    renderedErrorText d = "Error: " ++ d := by
  refine ⟨?_, rfl⟩
  simp [settleQuery, tryBody, hd, truthy, hne, jsToString_jstr, applyCatch, applyFinally]

/-- C8 witness: a concrete non-empty detail is surfaced verbatim. -/
theorem C8_nonempty_detail_surfaced_witness :
    (settleQuery initState (FetchResult.httpError
        (JVal.jobj [("detail", JVal.jstr "Internal Server Error")]))).displays
      = initState.displays ++ [Display.errorMsg "Internal Server Error"] ∧
    renderedErrorText "Internal Server Error" = "Error: " ++ "Internal Server Error" :=
  C8_nonempty_detail_surfaced initState _ "Internal Server Error" rfl (by decide)

/-- C10 counterexample: the claim as stated is false. When the 2xx body lacks
the response object entirely (for example the body is the empty object), the
read data.response.updated_history throws a TypeError before the assignment
runs, the catch path displays the error, and the stored chat history is left
unchanged rather than reset to the empty array. -/
theorem C10_missing_response_keeps_history :
    ¬ (∀ (s : UIState) (body : JVal),
        truthy (uhField body) = false →
        (settleQuery s (FetchResult.success body)).chatHistory = JVal.jarr []) := by
  intro h
  have h2 := h { initState with chatHistory := JVal.jarr [JVal.jstr "prior"], inFlight := 1 }
      (JVal.jobj []) rfl
  have h3 : (settleQuery
      { initState with chatHistory := JVal.jarr [JVal.jstr "prior"], inFlight := 1 }
      (FetchResult.success (JVal.jobj []))).chatHistory
      = JVal.jarr [JVal.jstr "prior"] := rfl
  rw [h3] at h2
  simp only [JVal.jarr.injEq] at h2
  exact absurd h2 (by simp)

/-- C10 amended: when the 2xx body does make data.response.updated_history
readable (data.response is neither absent nor null) and the field value is
falsy (absent, null, false, 0 or the empty string), the stored chat history
is reset to the empty array, discarding the prior conversation context. -/
theorem C10_falsy_history_resets (s : UIState) (body respObj uh : JVal)
    (h1 : getField body "response" = Except.ok respObj)
    (h2 : getField respObj "updated_history" = Except.ok uh)
    (h3 : truthy uh = false) :
    (settleQuery s (FetchResult.success body)).chatHistory = JVal.jarr [] := by
  simp [settleQuery, tryBody, h1, h2, h3, applyFinally]

/-- C10 witness: a 2xx body whose response object has no updated_history
field resets a non-empty stored history to the empty array. -/
theorem C10_falsy_history_resets_witness :
    (settleQuery { initState with chatHistory := JVal.jarr [JVal.jstr "prior"] }
        (FetchResult.success (JVal.jobj [("response", JVal.jobj [])]))).chatHistory
      = JVal.jarr [] :=
  C10_falsy_history_resets
    { initState with chatHistory := JVal.jarr [JVal.jstr "prior"] }
    (JVal.jobj [("response", JVal.jobj [])]) (JVal.jobj []) JVal.undef rfl rfl rfl

/-- Helper: the Query Executor only reads; it returns the store unchanged. -/
theorem runPlan_keeps_store (store : Agent.Store) (p : Plan) :
    (runPlan store p).2 = store := by
  rcases p with ⟨t, m, c⟩
  cases t <;> rfl

/-- Helper: one orchestration call leaves the data store unchanged. -/
theorem orchestrate_keeps_store (store : Agent.Store) (q : String) (h : List Agent.Turn) :
    (orchestrate store q h).2 = store := by
  unfold orchestrate
  cases classify q h with
  | conversational reply => rfl
  | clarify reply => rfl
  | retrieval p =>
    have hk := runPlan_keeps_store store p
    rcases hr : runPlan store p with ⟨⟨rows, truncated⟩, store1⟩
    rw [hr] at hk
    simp only [hr]
    simpa using hk

/-- C9 (modelled from the spec: the agent orchestrator is not among the
repository sources, so the pipeline of spec sections 4.1 to 4.5 is modelled
here): one orchestration call leaves the store unchanged, and replaying the
same (query, chat_history) pair immediately afterwards, with no intervening
data change, yields the same conversational_response and the same data
array. -/
theorem C9_replay_idempotent (store : Agent.Store) (q : String) (h : List Agent.Turn) :
    (orchestrate store q h).2 = store ∧
    (orchestrate (orchestrate store q h).2 q h).1.conversational_response
      = (orchestrate store q h).1.conversational_response ∧
    (orchestrate (orchestrate store q h).2 q h).1.data
      = (orchestrate store q h).1.data := by
  have hst := orchestrate_keeps_store store q h
  exact ⟨hst, by rw [hst], by rw [hst]⟩

/-- Helper: running a concatenated script is running the parts in order. -/
theorem execScript_append (st : PgState) (l1 l2 : List SqlStmt) :
    execScript st (l1 ++ l2) = execScript (execScript st l1) l2 := by
  induction l1 generalizing st with
  | nil => rfl
  | cons a t ih => simpa [execScript] using ih (execStmt st a)

/-- Helper: creating one more table in the public schema preserves the C2
invariant: the new table inherits exactly the default select grant, so the
catalog stays select-only and the readonly role still covers every public
table. -/
theorem c2Inv_createTable (st : PgState) (n : String) (h : c2Inv st) :
    c2Inv (execStmt st (SqlStmt.createTable n "public")) := by
  obtain ⟨⟨hT, hD, hS⟩, hCov, hDef, hMem⟩ := h
  refine ⟨⟨?_, hD, hS⟩, ?_, hDef, hMem⟩
  · intro e he
    rcases List.mem_append.mp he with he1 | he1
    · rcases List.mem_filterMap.mp he1 with ⟨d, hd, hde⟩
      by_cases hsch : d.2.1 = "public"
      · rw [if_pos hsch] at hde
        injection hde with h'
        rw [← h']
        exact hD d hd
      · rw [if_neg hsch] at hde
        exact Option.noConfusion hde
    · exact hT e he1
  · intro t ht htp
    rcases List.mem_cons.mp ht with rfl | ht1
    · refine List.mem_append.mpr (Or.inl ?_)
      refine List.mem_filterMap.mpr ⟨(TablePriv.select, "public", "ai_agent_readonly"), hDef, ?_⟩
      simp
    · exact List.mem_append.mpr (Or.inr (hCov t ht1 htp))

/-- Helper: the C2 invariant survives creating any list of further tables in
the public schema. -/
theorem c2Inv_future (fts : List String) (st : PgState) (h : c2Inv st) :
    c2Inv (execScript st (fts.map (fun n => SqlStmt.createTable n "public"))) := by
  induction fts generalizing st with
  | nil => exact h
  | cons a t ih => exact ih (execStmt st (SqlStmt.createTable a "public")) (c2Inv_createTable st a h)

/-- Helper: the V1 script establishes the C2 invariant on a clean catalog. -/
theorem c2Inv_initSql : c2Inv (execScript emptyPg initSqlScript) := by decide

/-- Helper: the V3 clean-start script establishes the C2 invariant. -/
theorem c2Inv_cleanStart : c2Inv (execScript emptyPg cleanStartScript) := by decide

/-- C2: after either initialization script runs, and after any further tables
are created in the public schema, every table privilege in the catalog
(current or default-for-future) is SELECT and every schema privilege is
USAGE — so no INSERT, UPDATE, DELETE or schema-modification privilege was
ever granted to anyone, in particular not to ai_agent_readonly; the
ai_agent_readonly role holds SELECT on every table of the public schema,
including the ones created after the script; and ai_user is a member of that
role. -/
theorem C2_agent_role_select_only (futureTables : List String) :
    (readOnlyAcl (stateAfter initSqlScript futureTables) ∧
     selectOnAllPublic (stateAfter initSqlScript futureTables) "ai_agent_readonly" ∧
     ("ai_agent_readonly", "ai_user") ∈ (stateAfter initSqlScript futureTables).members) ∧
    (readOnlyAcl (stateAfter cleanStartScript futureTables) ∧
     selectOnAllPublic (stateAfter cleanStartScript futureTables) "ai_agent_readonly" ∧
     ("ai_agent_readonly", "ai_user") ∈ (stateAfter cleanStartScript futureTables).members) := by
  have h1 : c2Inv (stateAfter initSqlScript futureTables) := by
    unfold stateAfter
    rw [execScript_append]
    exact c2Inv_future futureTables (execScript emptyPg initSqlScript) c2Inv_initSql
  have h3 : c2Inv (stateAfter cleanStartScript futureTables) := by
    unfold stateAfter
    rw [execScript_append]
    exact c2Inv_future futureTables (execScript emptyPg cleanStartScript) c2Inv_cleanStart
  exact ⟨⟨h1.1, h1.2.1, h1.2.2.2⟩, ⟨h3.1, h3.2.1, h3.2.2.2⟩⟩

/-- C2 witness: a table created after the V1 script still gets only SELECT
for ai_agent_readonly, and ai_user is a member of the role. -/
theorem C2_agent_role_select_only_witness :
    (TablePriv.select, "scouting_notes", "ai_agent_readonly")
      ∈ (stateAfter initSqlScript ["scouting_notes"]).tableAcl ∧
    ("ai_agent_readonly", "ai_user") ∈ (stateAfter initSqlScript ["scouting_notes"]).members :=
  ⟨(C2_agent_role_select_only ["scouting_notes"]).1.2.1 ("public", "scouting_notes")
      (by decide) rfl,
   (C2_agent_role_select_only ["scouting_notes"]).1.2.2⟩

/-- C3 counterexample: the claim that the schema of the tracking store enforces
uniqueness of (match_id, frame[, entity]) is false for the V1 tracking table
of src/infra/init.sql. That table declares only NOT NULL constraints — no
PRIMARY KEY and no UNIQUE — so a state holding two different rows (they
differ in speed) with the identical key tuple (m1, 1, p7) satisfies every
constraint the schema declares. -/
theorem C3_v1_tracking_duplicate_keys :
    ¬ (∀ rows : List TrackingRow, validTracking rows →
        rows.Pairwise (fun a b => trackingKey a ≠ trackingKey b)) := by
  intro h
  have h2 := h
    [ { match_id := some "m1", frame := some 1, timestamp_iso := some 0,
        team_id := some "home", player_id := some "p7",
        x := some 0, y := some 0, z := none, speed := some 1, orientation := none }
    , { match_id := some "m1", frame := some 1, timestamp_iso := some 0,
        team_id := some "home", player_id := some "p7",
        x := some 0, y := some 0, z := none, speed := some 2, orientation := none } ]
    (by decide)
  obtain ⟨h3, -⟩ := List.pairwise_cons.mp h2
  exact h3 _ (List.mem_cons_self _ _) rfl

/-- C3 amended: uniqueness of the key is enforced by the schema only in the
V3 store (src/unnamed/part_000), whose tracking_data table declares PRIMARY
KEY (match_id, frame): in every state satisfying the declared constraints,
any two rows at distinct positions have distinct (match_id, frame) key
tuples. The V1 tracking table enforces no such uniqueness (see the
counterexample), so there the invariant is only an assumption on the
ingestion pipeline. -/
theorem C3_v3_tracking_key_unique (meta : List MatchMetadataRow)
    (rows : List TrackingDataRow) (h : validTrackingData meta rows)
    (i j : Fin rows.length) (hij : i ≠ j) :
    tdKey (rows.get i) ≠ tdKey (rows.get j) := by
  obtain ⟨-, hpw, -⟩ := h
  exact pairwise_ne_get tdKey rows hpw i j hij

/-- C3 witness: two concrete tracking_data rows of the same match with
different frames form a valid state, and the amended theorem yields their key
disequality. -/
theorem C3_v3_tracking_key_unique_witness :
    tdKey ([tdDemo1, tdDemo2].get ⟨0, by decide⟩)
      ≠ tdKey ([tdDemo1, tdDemo2].get ⟨1, by decide⟩) :=
  C3_v3_tracking_key_unique [mmDemo] [tdDemo1, tdDemo2]
    (by refine ⟨by decide, by decide, ?_⟩
        intro r hr
        exact ⟨mmDemo, List.mem_singleton_self _, by
          rcases List.mem_cons.mp hr with rfl | hr1
          · rfl
          · rcases List.mem_cons.mp hr1 with rfl | hr2
            · rfl
            · cases hr2⟩)
    ⟨0, by decide⟩ ⟨1, by decide⟩ (by decide)

/-- C4 counterexample: the claim that the store guarantees the event
invariant for all reachable states is false. The events table of
src/infra/init.sql declares only NOT NULL columns and the event_id PRIMARY
KEY — no CHECK constraint on frame or time ordering and no constraint tying
frames to the match frame range — so a state holding the single event row
(e1, m1, pass, start_time 10, end_time 2, start_frame 5, end_frame 1),
alongside an empty tracking table, satisfies every declared constraint while
violating start_frame less-or-equal end_frame. -/
theorem C4_events_order_not_enforced :
    ¬ (∀ (tr : List TrackingRow) (evs : List EventsRow),
        validTracking tr → validEvents evs →
        ∀ r ∈ evs, eventInvariant tr r) := by
  intro h
  have h2 := h []
    [ { event_id := some "e1", match_id := some "m1", event_type := some "pass"
        start_time := some 10, end_time := some 2, start_frame := some 5
        end_frame := some 1, team_id := none, players_involved := none
        metadata_json := none } ]
    (by decide) (by decide)
  have h3 := (h2 _ (List.mem_singleton_self _)).1.1 5 1 rfl rfl
  exact absurd h3 (by decide)

/-- C4 amended: the schema does not enforce the frame/time ordering nor the
frame-range condition (see the counterexample); what the store does
guarantee, in every state satisfying the declared constraints, is exactly the
declared constraints: every row has its NOT NULL columns present, and any two
rows at distinct positions have distinct event_id values (the PRIMARY KEY).
The ordering/range invariant is an assumption on the external derivation
pipeline, not a property of the schema. -/
theorem C4_events_schema_guarantees (evs : List EventsRow) (h : validEvents evs) :
    (∀ r ∈ evs, eventsRowOk r) ∧
    (∀ i j : Fin evs.length, i ≠ j →
        (evs.get i).event_id ≠ (evs.get j).event_id) := by
  obtain ⟨hok, hpw⟩ := h
  exact ⟨hok, fun i j hij => pairwise_ne_get (fun r => r.event_id) evs hpw i j hij⟩

/-- C4 witness: a concrete two-event state is valid and the amended theorem
yields presence of the required columns and distinctness of the ids. -/
theorem C4_events_schema_guarantees_witness :
    eventsRowOk ([evDemo1, evDemo2].get ⟨0, by decide⟩) ∧
    ([evDemo1, evDemo2].get ⟨0, by decide⟩).event_id
      ≠ ([evDemo1, evDemo2].get ⟨1, by decide⟩).event_id :=
  ⟨(C4_events_schema_guarantees [evDemo1, evDemo2] (by decide)).1 _
      (List.mem_cons_self _ _),
   (C4_events_schema_guarantees [evDemo1, evDemo2] (by decide)).2
      ⟨0, by decide⟩ ⟨1, by decide⟩ (by decide)⟩
